import Mathlib

/-!
Shallow embedding of the data pipeline of `it-takes-a-walk.ipynb`:
the Stop-and-Search record normalizer (`parse_ss_event`), the per-month
batch normalizer (`parsing`), the monthly fetch-and-parse step
(`get_month_crime`), the annual accumulator (`yearly_crimes_20`), the
geo-tagger (`crimes_geodf_20`), the substring-containment subset filters
(`black`, `black_youth`), the percentage computations, and the isochrone
feature splitter (`walk_5` / `walk_10`).

Modelling conventions:
* JSON values are the inductive `Json`; Python `dict[key]` access is
  `Json.getKey`, which fails (Python `KeyError(key)`, modelled as
  `Except.error key`) when the key is missing or the value is not an object.
* Python `float` values are modelled as exact rationals (`Rat`); `float(s)`
  on the decimal strings this API returns is `pyFloatOfString`.
* A `pd.Series` built from a string-keyed dict literal is the association
  list of its (key, value) pairs in literal order (`Series`).
* Exceptions abort the enclosing computation: fallible code lives in
  `Except String`.
* Network fetches are a parameter `fetch : String → String → List Json`
  mapping (month, year) to the decoded JSON array of raw records.
-/

namespace ItWalk

/-- JSON values as decoded by `json.loads`.  Numbers that Python decodes as
floats are carried as exact rationals. -/
inductive Json where
  | null : Json
  | bool : Bool → Json
  | int : Int → Json
  | num : Rat → Json
  | str : String → Json
  | arr : List Json → Json
  | obj : List (String × Json) → Json

/-- Lookup of a key in an association list (first match wins, as in a
Python dict whose keys are unique). -/
def lookupKey : List (String × Json) → String → Option Json
  | [], _ => none
  | (k, v) :: rest, key => if k = key then some v else lookupKey rest key

/-- Python `d[key]`: returns the value, raises `KeyError(key)` when the key
is absent (the error payload is the key), and `TypeError` when `d` is not a
dict. -/
def Json.getKey : Json → String → Except String Json
  | .obj kvs, key =>
    match lookupKey kvs key with
    | some v => .ok v
    | none => .error key
  | _, _ => .error "TypeError"

/-- Digits of a decimal string read as a natural number. -/
def digitsToNat (cs : List Char) : Nat :=
  cs.foldl (fun a c => a * 10 + (c.toNat - 48)) 0

/-- Split a character list at the first dot; fails when a second dot
remains. -/
def splitDot : List Char → Option (List Char × List Char)
  | [] => some ([], [])
  | c :: rest =>
    if c = '.' then
      if rest.contains '.' then none else some ([], rest)
    else
      (splitDot rest).map (fun p => (c :: p.1, p.2))

/-- Model of Python `float()` applied to a plain decimal string (an optional
sign, digits, an optional dot and fraction digits — the only shape the
Police API uses for coordinates).  IEEE-754 rounding is abstracted away:
the value is the exact rational the digits denote. -/
def pyFloatOfString (s : String) : Option Rat :=
  let (neg, body) :=
    match s.data with
    | '-' :: rest => (true, rest)
    | '+' :: rest => (false, rest)
    | cs => (false, cs)
  match splitDot body with
  | none => none
  | some (ip, fp) =>
    if ip.all Char.isDigit && fp.all Char.isDigit && !(ip.isEmpty && fp.isEmpty) then
      let mag : Rat := (digitsToNat ip : Rat) + (digitsToNat fp : Rat) / ((10 : Rat) ^ fp.length)
      some (if neg then -mag else mag)
    else
      none

/-- Python `float(v)`: numbers pass through, strings are parsed
(`ValueError` on failure), booleans coerce, everything else raises
`TypeError`. -/
def pyFloat : Json → Except String Rat
  | .num q => .ok q
  | .int n => .ok (n : Rat)
  | .bool b => .ok (if b then 1 else 0)
  | .str s =>
    match pyFloatOfString s with
    | some q => .ok q
    | none => .error "ValueError"
  | _ => .error "TypeError"

/-- A `pd.Series` built from a string-keyed dict literal: the (key, value)
pairs in literal order. -/
abbrev Series := List (String × Json)

/-- Model of `parse_ss_event` of the notebook: normalize one raw Stop-and-Search
record to a flat series.  Key accesses happen in the dict-literal order of
the source; the first missing key aborts with that key as the error.  Note
the source spells the third output key `involed_person`. -/
def parse_ss_event (cr : Json) : Except String Series := do
  let age ← cr.getKey "age_range"
  let outc ← cr.getKey "outcome"
  let inv ← cr.getKey "involved_person"
  let gend ← cr.getKey "gender"
  let sde ← cr.getKey "self_defined_ethnicity"
  let loc1 ← cr.getKey "location"
  let street ← loc1.getKey "street"
  let sid ← street.getKey "id"
  let loc2 ← cr.getKey "location"
  let lngRaw ← loc2.getKey "longitude"
  let lng ← pyFloat lngRaw
  let loc3 ← cr.getKey "location"
  let latRaw ← loc3.getKey "latitude"
  let lat ← pyFloat latRaw
  let date ← cr.getKey "datetime"
  let oeth ← cr.getKey "officer_defined_ethnicity"
  .ok [("age_range", age), ("outcome", outc), ("involed_person", inv),
       ("gender", gend), ("self_defined_ethnicity", sde), ("street_id", sid),
       ("longitude", .num lng), ("latitude", .num lat), ("date", date),
       ("officer_ethnicity", oeth)]

/-- Model of `parsing` of the notebook: normalize a monthly batch by looping over
the records in order and appending each parsed record.  A record whose
extraction raises aborts the whole loop (the source has no per-record
handler). -/
def parsing : List Json → Except String (List Series)
  | [] => .ok []
  | cr :: rest => do
    let pc ← parse_ss_event cr
    let tail ← parsing rest
    .ok (pc :: tail)

/-- Model of `get_month_crime` of the notebook: fetch one month's raw records and
normalize them.  The network fetch is the parameter `fetch`, applied to the
month and year strings that build the query URL. -/
def get_month_crime (fetch : String → String → List Json)
    (month year : String) : Except String (List Series) :=
  parsing (fetch month year)

/-- Model of `yearly_crimes_20` of the notebook: `pd.concat` of the twelve monthly
tables of 2020, evaluated month `"01"` through `"12"` in order; any month
whose normalization raises aborts the whole concatenation. -/
def yearly_crimes_20 (fetch : String → String → List Json) :
    Except String (List Series) := do
  let m01 ← get_month_crime fetch "01" "2020"
  let m02 ← get_month_crime fetch "02" "2020"
  let m03 ← get_month_crime fetch "03" "2020"
  let m04 ← get_month_crime fetch "04" "2020"
  let m05 ← get_month_crime fetch "05" "2020"
  let m06 ← get_month_crime fetch "06" "2020"
  let m07 ← get_month_crime fetch "07" "2020"
  let m08 ← get_month_crime fetch "08" "2020"
  let m09 ← get_month_crime fetch "09" "2020"
  let m10 ← get_month_crime fetch "10" "2020"
  let m11 ← get_month_crime fetch "11" "2020"
  let m12 ← get_month_crime fetch "12" "2020"
  .ok (m01 ++ m02 ++ m03 ++ m04 ++ m05 ++ m06 ++ m07 ++ m08 ++ m09 ++ m10 ++ m11 ++ m12)

/-- Lookup of a named column's value in one normalized row. -/
def seriesGet (row : Series) (k : String) : Option Json := lookupKey row k

/-- One row of a GeoDataFrame: the flat fields plus the derived point
geometry. -/
structure GeoRow where
  fields : Series
  geometry : Option (Rat × Rat)

/-- A GeoDataFrame over normalized rows: the rows and the coordinate
reference system string it was tagged with. -/
structure GeoTable where
  rows : List GeoRow
  crs : String

/-- The point `gpd.points_from_xy` derives for one row: the numeric values
of its `longitude` and `latitude` columns (no point when either is not a
number). -/
def pointFromRow (r : Series) : Option (Rat × Rat) :=
  match seriesGet r "longitude", seriesGet r "latitude" with
  | some (.num x), some (.num y) => some (x, y)
  | _, _ => none

/-- Model of `crimes_geodf_20` of the notebook: attach to every row of the annual
table a point built from that row's longitude/latitude columns, and tag the
GeoDataFrame with `crs="EPSG:27700"` (the literal the source passes). -/
def crimes_geodf_20 (tbl : List Series) : GeoTable :=
  { rows := tbl.map (fun r => { fields := r, geometry := pointFromRow r }),
    crs := "EPSG:27700" }

/-- Is `sub` a contiguous sublist of `hay`? -/
def containsSubList (sub : List Char) : List Char → Bool
  | [] => sub.isEmpty
  | c :: t => sub.isPrefixOf (c :: t) || containsSubList sub t

/-- Substring containment on strings. -/
def strContains (s pat : String) : Bool := containsSubList pat.data s.data

/-- One cell of `Series.str.contains(pat, na=False)`: true exactly when the
value is a string containing `pat` as a substring; missing and non-string
values give `False` (the `na=False` default the source passes).  The
patterns the source uses (`"Black"`, `"White"`, `"18-24"`, `"Male"`,
`"Arrest"`) contain no regex metacharacters, so regex search coincides with
substring containment. -/
def pdContains (v : Option Json) (pat : String) : Bool :=
  match v with
  | some (.str s) => strContains s pat
  | _ => false

/-- Boolean-mask subsetting `g[g[col].str.contains(pat, na=False)]`: keep
the rows whose `col` value contains `pat`; the CRS tag is inherited. -/
def filterContains (g : GeoTable) (col pat : String) : GeoTable :=
  { rows := g.rows.filter (fun r => pdContains (seriesGet r.fields col) pat),
    crs := g.crs }

/-- Model of `black` of the notebook: the subset whose `self_defined_ethnicity`
contains `"Black"`. -/
def black (g : GeoTable) : GeoTable := filterContains g "self_defined_ethnicity" "Black"

/-- Model of `black_youth` of the notebook: the subset of a table whose `age_range`
contains `"18-24"` (applied to `black` in the source). -/
def black_youth (b : GeoTable) : GeoTable := filterContains b "age_range" "18-24"

/-- Python `a / b` on nonnegative integers: true division, raising
`ZeroDivisionError` on a zero denominator (never silently `NaN`). -/
def pyDiv (a b : Nat) : Except String Rat :=
  if b = 0 then .error "ZeroDivisionError" else .ok ((a : Rat) / (b : Rat))

/-- Model of `bk_percentage` of the notebook: `len(black) / len(crimes_geodf_20)`. -/
def bk_percentage (g : GeoTable) : Except String Rat :=
  pyDiv (black g).rows.length g.rows.length

/-- The black-youth percentage cell of the notebook:
`(len(black_youth) / len(black)) * 100`. -/
def bk_youth_percentage (g : GeoTable) : Except String Rat :=
  (pyDiv (black_youth (black g)).rows.length (black g).rows.length).map (fun q => q * 100)

/-- One GeoJSON feature of the isochrone response: its `properties` dict
and its polygon coordinates (a list of rings, each an ordered list of
longitude/latitude positions). -/
structure Feature where
  properties : List (String × Json)
  coordinates : List (List (Rat × Rat))

/-- The decoded isochrone response: a FeatureCollection. -/
structure FeatureCollection where
  features : List Feature

/-- A GeoDataFrame built by `gpd.GeoDataFrame.from_features`: the features
it was built from (geometry taken verbatim) and its CRS tag. -/
structure WalkGeoDF where
  features : List Feature
  crs : String

/-- Model of `gpd.GeoDataFrame.from_features(fs, crs=crs)`: one row per feature,
geometry coordinates as in the feature. -/
def from_features (fs : List Feature) (crs : String) : WalkGeoDF :=
  { features := fs, crs := crs }

/-- Python `walk['features'][i]`: positional indexing, `IndexError` when the
list is too short. -/
def featureAt (walk : FeatureCollection) (i : Nat) : Except String Feature :=
  match walk.features.get? i with
  | some f => .ok f
  | none => .error "IndexError"

/-- Model of `walk_5` of the notebook: `walk['features'][0]`, wrapped as a
single-feature GeoDataFrame with `crs="EPSG:4326"`.  The split is by array
position, not by the feature's `contour` property. -/
def walk_5 (walk : FeatureCollection) : Except String WalkGeoDF :=
  (featureAt walk 0).map (fun f => from_features [f] "EPSG:4326")

/-- Model of `walk_10` of the notebook: `walk['features'][1]`, wrapped as a
single-feature GeoDataFrame with `crs="EPSG:4326"`. -/
def walk_10 (walk : FeatureCollection) : Except String WalkGeoDF :=
  (featureAt walk 1).map (fun f => from_features [f] "EPSG:4326")

/-- The first feature of the isochrone response recorded in the notebook
(`walk` output cell): note its `contour` property is `10`. -/
def recordedFeature0 : Feature :=
  { properties := [("fill", .str "#04e813"), ("fillOpacity", .num (0.33 : Rat)),
      ("fill-opacity", .num (0.33 : Rat)), ("fillColor", .str "#04e813"),
      ("color", .str "#04e813"), ("contour", .int 10),
      ("opacity", .num (0.33 : Rat)), ("metric", .str "time")],
    coordinates := [[(-2.978886, 53.409888), (-2.975918, 53.408865),
      (-2.974918, 53.409182), (-2.973336, 53.408856), (-2.972172, 53.407856),
      (-2.971969, 53.406856), (-2.97068, 53.405856), (-2.97165, 53.404856),
      (-2.971143, 53.403856), (-2.972649, 53.402856), (-2.972188, 53.401856),
      (-2.973918, 53.400065), (-2.975918, 53.399147), (-2.977918, 53.399598),
      (-2.983918, 53.39852), (-2.986918, 53.398461), (-2.989608, 53.399856),
      (-2.98975, 53.401024), (-2.990918, 53.400963), (-2.992679, 53.401856),
      (-2.992338, 53.402856), (-2.993605, 53.404856), (-2.99281, 53.406856),
      (-2.990744, 53.408856), (-2.988103, 53.410041), (-2.984079, 53.410017),
      (-2.982918, 53.410703), (-2.978886, 53.409888)]] }

/-- The second feature of the recorded isochrone response: its `contour`
property is `5`. -/
def recordedFeature1 : Feature :=
  { properties := [("fill", .str "#6706ce"), ("fillOpacity", .num (0.33 : Rat)),
      ("fill-opacity", .num (0.33 : Rat)), ("fillColor", .str "#6706ce"),
      ("color", .str "#6706ce"), ("contour", .int 5),
      ("opacity", .num (0.33 : Rat)), ("metric", .str "time")],
    coordinates := [[(-2.981696, 53.407078), (-2.981197, 53.406577),
      (-2.97991, 53.406848), (-2.977072, 53.405856), (-2.976778, 53.404856),
      (-2.97777, 53.403856), (-2.977666, 53.402604), (-2.979805, 53.401856),
      (-2.980918, 53.402198), (-2.983918, 53.401447), (-2.985918, 53.401583),
      (-2.987925, 53.402856), (-2.988279, 53.404856), (-2.987275, 53.406213),
      (-2.982918, 53.407705), (-2.981696, 53.407078)]] }

/-- The whole recorded isochrone response: contour-10 feature first,
contour-5 feature second. -/
def recordedWalk : FeatureCollection :=
  { features := [recordedFeature0, recordedFeature1] }

/-- A complete raw record (a valid API record shape: all keys `parse_ss_event`
accesses are present, with a Black self-defined ethnicity and age 18-24). -/
def rawBlackYouth : Json :=
  .obj [("age_range", .str "18-24"),
        ("outcome", .str "Arrest"),
        ("involved_person", .bool true),
        ("gender", .str "Male"),
        ("self_defined_ethnicity", .str "Black British"),
        ("legislation", .str "Misuse of Drugs Act 1971"),
        ("object_of_search", .str "Controlled drugs"),
        ("location", .obj [("street", .obj [("id", .int 883415),
             ("name", .str "On or near Park Road")]),
           ("longitude", .str "-2.966052"), ("latitude", .str "53.385807")]),
        ("datetime", .str "2020-01-11T09:15:00+00:00"),
        ("officer_defined_ethnicity", .str "Black")]

/-- The rational a coordinate string denotes (0 when it does not parse);
the same value `parse_ss_event` stores for a parsed coordinate. -/
def floatVal (s : String) : Rat := (pyFloatOfString s).getD 0

/-- The normalized row `parse_ss_event` produces from `rawBlackYouth`. -/
def rowBlackYouth : Series :=
  [("age_range", .str "18-24"), ("outcome", .str "Arrest"),
   ("involed_person", .bool true), ("gender", .str "Male"),
   ("self_defined_ethnicity", .str "Black British"), ("street_id", .int 883415),
   ("longitude", .num (floatVal "-2.966052")), ("latitude", .num (floatVal "53.385807")),
   ("date", .str "2020-01-11T09:15:00+00:00"), ("officer_ethnicity", .str "Black")]

/-- A complete raw record with a Black self-defined ethnicity and an age
range other than 18-24. -/
def rawBlackAdult : Json :=
  .obj [("age_range", .str "over 34"),
        ("outcome", .str "A no further action disposal"),
        ("involved_person", .bool true),
        ("gender", .str "Male"),
        ("self_defined_ethnicity", .str "Black British"),
        ("location", .obj [("street", .obj [("id", .int 883407)]),
           ("longitude", .str "-2.97"), ("latitude", .str "53.4")]),
        ("datetime", .str "2020-02-01T10:00:00+00:00"),
        ("officer_defined_ethnicity", .str "White")]

/-- A complete raw record with a White self-defined ethnicity. -/
def rawWhiteAdult : Json :=
  .obj [("age_range", .str "25-34"),
        ("outcome", .str "A no further action disposal"),
        ("involved_person", .bool false),
        ("gender", .str "Female"),
        ("self_defined_ethnicity", .str "White British"),
        ("location", .obj [("street", .obj [("id", .int 883300)]),
           ("longitude", .str "-2.98"), ("latitude", .str "53.41")]),
        ("datetime", .str "2020-03-05T23:30:00+00:00"),
        ("officer_defined_ethnicity", .str "White")]

/-- A raw record whose `location` object has no `latitude` key (everything
accessed before it is present). -/
def rawNoLatitude : Json :=
  .obj [("age_range", .str "18-24"),
        ("outcome", .str "Arrest"),
        ("involved_person", .bool true),
        ("gender", .str "Male"),
        ("self_defined_ethnicity", .str "Black British"),
        ("location", .obj [("street", .obj [("id", .int 883401)]),
           ("longitude", .str "-2.96")]),
        ("datetime", .str "2020-01-12T09:15:00+00:00"),
        ("officer_defined_ethnicity", .str "Black")]

/-- The fixed fake monthly payload of the end-to-end scenario: 100 valid
records, of which exactly 10 contain `"Black"` in their self-defined
ethnicity and exactly 5 of those also contain `"18-24"` in their age
range. -/
def scenarioPayload : List Json :=
  List.replicate 5 rawBlackYouth ++ List.replicate 5 rawBlackAdult ++
    List.replicate 90 rawWhiteAdult

/-- The normalized row `parse_ss_event` produces from `rawBlackAdult`. -/
def rowBlackAdult : Series :=
  [("age_range", .str "over 34"), ("outcome", .str "A no further action disposal"),
   ("involed_person", .bool true), ("gender", .str "Male"),
   ("self_defined_ethnicity", .str "Black British"), ("street_id", .int 883407),
   ("longitude", .num (floatVal "-2.97")), ("latitude", .num (floatVal "53.4")),
   ("date", .str "2020-02-01T10:00:00+00:00"), ("officer_ethnicity", .str "White")]

/-- The normalized row `parse_ss_event` produces from `rawWhiteAdult`. -/
def rowWhiteAdult : Series :=
  [("age_range", .str "25-34"), ("outcome", .str "A no further action disposal"),
   ("involed_person", .bool false), ("gender", .str "Female"),
   ("self_defined_ethnicity", .str "White British"), ("street_id", .int 883300),
   ("longitude", .num (floatVal "-2.98")), ("latitude", .num (floatVal "53.41")),
   ("date", .str "2020-03-05T23:30:00+00:00"), ("officer_ethnicity", .str "White")]

/-- The normalized table of the scenario payload. -/
def scenarioTable : List Series :=
  List.replicate 5 rowBlackYouth ++ List.replicate 5 rowBlackAdult ++
    List.replicate 90 rowWhiteAdult

/-- The raw-record counterpart of the `black` filter, used to state
end-to-end hypotheses: does `cr[key]` hold a string containing `pat`? -/
def rawContains (cr : Json) (key pat : String) : Bool :=
  pdContains (cr.getKey key).toOption pat

/-! ## Helper lemmas -/

/-- Inversion of a successful `Except` bind. -/
theorem bind_ok {α β : Type} {x : Except String α} {f : α → Except String β} {b : β}
    (h : (x >>= f) = .ok b) : ∃ a, x = .ok a ∧ f a = .ok b := by
  cases x with
  | error e => exact absurd h (by simp [Bind.bind, Except.bind])
  | ok a => exact ⟨a, rfl, h⟩

/-- A successful `Except` bind, as an equivalence (for rewriting). -/
theorem bind_ok_iff {α β : Type} (x : Except String α) (f : α → Except String β) (b : β) :
    (x >>= f) = .ok b ↔ ∃ a, x = .ok a ∧ f a = .ok b := by
  constructor
  · exact bind_ok
  · rintro ⟨a, rfl, hf⟩
    exact hf

/-! ## C1: the accumulator concatenates the twelve monthly tables -/

/-- C1: for every fixed year, the annual table produced by the accumulator
is the concatenation of the twelve monthly normalized tables in month order
1..12, with intra-month row order preserved and no sorting or
deduplication; its length equals the exact sum of the twelve monthly table
lengths; and concatenating twelve empty monthly tables yields an empty
annual table. -/
theorem yearly_is_month_concat (fetch : String → String → List Json)
    (t01 t02 t03 t04 t05 t06 t07 t08 t09 t10 t11 t12 : List Series)
    (h01 : get_month_crime fetch "01" "2020" = .ok t01)
    (h02 : get_month_crime fetch "02" "2020" = .ok t02)
    (h03 : get_month_crime fetch "03" "2020" = .ok t03)
    (h04 : get_month_crime fetch "04" "2020" = .ok t04)
    (h05 : get_month_crime fetch "05" "2020" = .ok t05)
    (h06 : get_month_crime fetch "06" "2020" = .ok t06)
    (h07 : get_month_crime fetch "07" "2020" = .ok t07)
    (h08 : get_month_crime fetch "08" "2020" = .ok t08)
    (h09 : get_month_crime fetch "09" "2020" = .ok t09)
    (h10 : get_month_crime fetch "10" "2020" = .ok t10)
    (h11 : get_month_crime fetch "11" "2020" = .ok t11)
    (h12 : get_month_crime fetch "12" "2020" = .ok t12) :
    yearly_crimes_20 fetch =
      .ok (t01 ++ t02 ++ t03 ++ t04 ++ t05 ++ t06 ++ t07 ++ t08 ++ t09 ++ t10 ++ t11 ++ t12) ∧
    (t01 ++ t02 ++ t03 ++ t04 ++ t05 ++ t06 ++ t07 ++ t08 ++ t09 ++ t10 ++ t11 ++ t12).length =
      t01.length + t02.length + t03.length + t04.length + t05.length + t06.length +
        t07.length + t08.length + t09.length + t10.length + t11.length + t12.length ∧
    (t01 = [] → t02 = [] → t03 = [] → t04 = [] → t05 = [] → t06 = [] → t07 = [] →
      t08 = [] → t09 = [] → t10 = [] → t11 = [] → t12 = [] →
      yearly_crimes_20 fetch = .ok []) := by
  have hy : yearly_crimes_20 fetch =
      .ok (t01 ++ t02 ++ t03 ++ t04 ++ t05 ++ t06 ++ t07 ++ t08 ++ t09 ++ t10 ++ t11 ++ t12) := by
    simp only [yearly_crimes_20, h01, h02, h03, h04, h05, h06, h07, h08, h09, h10, h11, h12]
    rfl
  refine ⟨hy, by simp [Nat.add_assoc], ?_⟩
  intro e01 e02 e03 e04 e05 e06 e07 e08 e09 e10 e11 e12
  subst e01 e02 e03 e04 e05 e06 e07 e08 e09 e10 e11 e12
  simpa using hy

/-- C1 witness: a fetch returning the same one valid record for every
month; all hypotheses hold by computation. -/
theorem yearly_is_month_concat_witness :
    yearly_crimes_20 (fun _ _ => [rawBlackYouth]) =
      .ok ([rowBlackYouth] ++ [rowBlackYouth] ++ [rowBlackYouth] ++ [rowBlackYouth] ++
        [rowBlackYouth] ++ [rowBlackYouth] ++ [rowBlackYouth] ++ [rowBlackYouth] ++
        [rowBlackYouth] ++ [rowBlackYouth] ++ [rowBlackYouth] ++ [rowBlackYouth]) ∧
    ([rowBlackYouth] ++ [rowBlackYouth] ++ [rowBlackYouth] ++ [rowBlackYouth] ++
        [rowBlackYouth] ++ [rowBlackYouth] ++ [rowBlackYouth] ++ [rowBlackYouth] ++
        [rowBlackYouth] ++ [rowBlackYouth] ++ [rowBlackYouth] ++ [rowBlackYouth]).length =
      [rowBlackYouth].length + [rowBlackYouth].length + [rowBlackYouth].length +
        [rowBlackYouth].length + [rowBlackYouth].length + [rowBlackYouth].length +
        [rowBlackYouth].length + [rowBlackYouth].length + [rowBlackYouth].length +
        [rowBlackYouth].length + [rowBlackYouth].length + [rowBlackYouth].length ∧
    ([rowBlackYouth] = ([] : List Series) → [rowBlackYouth] = ([] : List Series) →
      [rowBlackYouth] = ([] : List Series) → [rowBlackYouth] = ([] : List Series) →
      [rowBlackYouth] = ([] : List Series) → [rowBlackYouth] = ([] : List Series) →
      [rowBlackYouth] = ([] : List Series) → [rowBlackYouth] = ([] : List Series) →
      [rowBlackYouth] = ([] : List Series) → [rowBlackYouth] = ([] : List Series) →
      [rowBlackYouth] = ([] : List Series) → [rowBlackYouth] = ([] : List Series) →
      yearly_crimes_20 (fun _ _ => [rawBlackYouth]) = .ok []) :=
  yearly_is_month_concat (fun _ _ => [rawBlackYouth])
    [rowBlackYouth] [rowBlackYouth] [rowBlackYouth] [rowBlackYouth]
    [rowBlackYouth] [rowBlackYouth] [rowBlackYouth] [rowBlackYouth]
    [rowBlackYouth] [rowBlackYouth] [rowBlackYouth] [rowBlackYouth]
    rfl rfl rfl rfl rfl rfl rfl rfl rfl rfl rfl rfl

/-! ## C2: the exact field list of a normalized record -/

/-- Inversion of a successful `parse_ss_event`: the scalar accesses that
succeeded and the literal shape of the output row. -/
theorem parse_ok_shape {cr : Json} {nr : Series} (h : parse_ss_event cr = .ok nr) :
    ∃ a o i g s si lg lt d oe,
      cr.getKey "age_range" = .ok a ∧
      cr.getKey "outcome" = .ok o ∧
      cr.getKey "involved_person" = .ok i ∧
      cr.getKey "gender" = .ok g ∧
      cr.getKey "self_defined_ethnicity" = .ok s ∧
      cr.getKey "datetime" = .ok d ∧
      cr.getKey "officer_defined_ethnicity" = .ok oe ∧
      nr = [("age_range", a), ("outcome", o), ("involed_person", i), ("gender", g),
            ("self_defined_ethnicity", s), ("street_id", si), ("longitude", .num lg),
            ("latitude", .num lt), ("date", d), ("officer_ethnicity", oe)] := by
  simp only [parse_ss_event, bind_ok_iff] at h
  obtain ⟨a, ha, o, ho, i, hi, g, hg, s, hs, loc1, hloc1, st, hst, si, hsi, loc2, hloc2,
    lngR, hlngR, lg, hlg, loc3, hloc3, latR, hlatR, lt, hlt, d, hd, oe, hoe, heq⟩ := h
  exact ⟨a, o, i, g, s, si, lg, lt, d, oe, ha, ho, hi, hg, hs, hd, hoe,
    (Except.ok.inj heq).symm⟩

/-- C2 (amended): for every raw record the normalizer accepts, the
normalized record is a flat tuple with exactly these named fields in this
order and no others: `age_range`, `outcome`, `involed_person` (the source's
spelling), `gender`, `self_defined_ethnicity`, `street_id`, `longitude`,
`latitude`, `date`, `officer_ethnicity`. -/
theorem parse_fields_exact {cr : Json} {nr : Series} (h : parse_ss_event cr = .ok nr) :
    nr.map Prod.fst =
      ["age_range", "outcome", "involed_person", "gender", "self_defined_ethnicity",
       "street_id", "longitude", "latitude", "date", "officer_ethnicity"] := by
  obtain ⟨a, o, i, g, s, si, lg, lt, d, oe, _, _, _, _, _, _, _, hnr⟩ := parse_ok_shape h
  subst hnr
  rfl

/-- C2 witness: the field list of the record parsed from `rawBlackYouth`. -/
theorem parse_fields_exact_witness :
    rowBlackYouth.map Prod.fst =
      ["age_range", "outcome", "involed_person", "gender", "self_defined_ethnicity",
       "street_id", "longitude", "latitude", "date", "officer_ethnicity"] :=
  @parse_fields_exact rawBlackYouth rowBlackYouth rfl

/-- C2 counterexample: the claim's field list names `involved_person`, but
the normalizer's third output key is spelled `involed_person`, so the
normalized record of a concrete valid raw record does not carry the
claimed field list. -/
theorem parse_fields_claim_counterexample :
    parse_ss_event rawBlackYouth = .ok rowBlackYouth ∧
    rowBlackYouth.map Prod.fst ≠
      ["age_range", "outcome", "involved_person", "gender", "self_defined_ethnicity",
       "street_id", "longitude", "latitude", "date", "officer_ethnicity"] :=
  ⟨rfl, by decide⟩

/-! ## C3: a record with a missing key aborts the whole monthly batch -/

/-- C3 (amended): a raw record missing a required nested key (for example
`location.latitude`) makes `parse_ss_event` fail for that record, and the
batch normalizer `parsing` propagates the failure: any batch containing
such a record normalizes to an error, not to a table; there is no
skipped-records counter. -/
theorem parsing_stops_on_bad_record (batch : List Json) (cr : Json) (e : String)
    (hmem : cr ∈ batch) (herr : parse_ss_event cr = .error e) :
    ∃ e', parsing batch = .error e' := by
  induction batch with
  | nil => cases hmem
  | cons a t ih =>
    cases hmem with
    | head =>
      exact ⟨e, by simp [parsing, herr, Bind.bind, Except.bind]⟩
    | tail _ hmem' =>
      cases hpa : parse_ss_event a with
      | error ea => exact ⟨ea, by simp [parsing, hpa, Bind.bind, Except.bind]⟩
      | ok pa =>
        obtain ⟨e', he'⟩ := ih hmem'
        exact ⟨e', by simp [parsing, hpa, he', Bind.bind, Except.bind]⟩

/-- C3 witness: a concrete batch holding a record whose `location` object
has no `latitude` key normalizes to an error. -/
theorem parsing_stops_witness :
    ∃ e', parsing [rawWhiteAdult, rawNoLatitude] = .error e' :=
  parsing_stops_on_bad_record [rawWhiteAdult, rawNoLatitude] rawNoLatitude "latitude"
    (List.mem_cons_of_mem _ (List.mem_cons_self _ _)) rfl

/-- C3 counterexample: in a batch of three records whose middle record
misses `location.latitude`, the source's batch normalizer yields an error
(`KeyError` on `latitude`) and no table at all — the two well-formed
records are not normalized and nothing is counted as skipped, contrary to
the claim. -/
theorem parsing_skip_counterexample :
    parsing [rawWhiteAdult, rawNoLatitude, rawBlackYouth] = .error "latitude" ∧
    ∀ tbl : List Series, parsing [rawWhiteAdult, rawNoLatitude, rawBlackYouth] ≠ .ok tbl := by
  have h1 : parsing [rawWhiteAdult, rawNoLatitude, rawBlackYouth] = .error "latitude" := rfl
  refine ⟨h1, fun tbl h => ?_⟩
  rw [h1] at h
  exact Except.noConfusion h

/-! ## C5: the end-to-end counting scenario -/

/-- Normalization copies the ethnicity and age values: the normalized row's
`self_defined_ethnicity` and `age_range` columns hold exactly the raw
record's values. -/
theorem parse_preserves_lookup {cr : Json} {nr : Series}
    (h : parse_ss_event cr = .ok nr) :
    seriesGet nr "self_defined_ethnicity" = (cr.getKey "self_defined_ethnicity").toOption ∧
    seriesGet nr "age_range" = (cr.getKey "age_range").toOption := by
  obtain ⟨a, o, i, g, s, si, lg, lt, d, oe, ha, ho, hi, hg, hs, hd, hoe, hnr⟩ :=
    parse_ok_shape h
  subst hnr
  rw [hs, ha]
  exact ⟨rfl, rfl⟩

/-- A successful batch normalization preserves length and the count of any
per-record predicate that transfers across `parse_ss_event`. -/
theorem parsing_ok_counts (p : Json → Bool) (q : Series → Bool)
    (hpq : ∀ cr nr, parse_ss_event cr = .ok nr → q nr = p cr) :
    ∀ (payload : List Json) (tbl : List Series), parsing payload = .ok tbl →
      tbl.length = payload.length ∧ tbl.countP q = payload.countP p := by
  intro payload
  induction payload with
  | nil =>
    intro tbl h
    simp only [parsing, Except.ok.injEq] at h
    subst h
    simp
  | cons cr rest ih =>
    intro tbl h
    simp only [parsing, bind_ok_iff] at h
    obtain ⟨pc, hpc, tail, htail, heq⟩ := h
    obtain rfl := (Except.ok.inj heq).symm
    obtain ⟨ihlen, ihcnt⟩ := ih tail htail
    refine ⟨by simp [ihlen], ?_⟩
    simp [List.countP_cons, ihcnt, hpq cr pc hpc]

/-- The length of the `black` subset of the geo-tagged table is the count
of rows whose ethnicity column contains `"Black"`. -/
theorem black_length (tbl : List Series) :
    (black (crimes_geodf_20 tbl)).rows.length =
      tbl.countP (fun nr => pdContains (seriesGet nr "self_defined_ethnicity") "Black") := by
  simp only [black, filterContains, crimes_geodf_20]
  rw [List.filter_map, List.length_map, ← List.countP_eq_length_filter]
  rfl

/-- The length of the `black_youth` subset (youth filter over the black
subset) is the count of rows satisfying both column predicates. -/
theorem black_youth_length (tbl : List Series) :
    (black_youth (black (crimes_geodf_20 tbl))).rows.length =
      tbl.countP (fun nr => pdContains (seriesGet nr "self_defined_ethnicity") "Black" &&
        pdContains (seriesGet nr "age_range") "18-24") := by
  simp only [black_youth, black, filterContains, crimes_geodf_20]
  rw [List.filter_filter, List.filter_map, List.length_map, ← List.countP_eq_length_filter]
  refine List.countP_congr ?_
  intro x _
  simp only [Function.comp_apply]
  rw [Bool.and_comm]

/-- C5: for every fake monthly payload of 100 valid records of which
exactly 10 contain `"Black"` in `self_defined_ethnicity` and exactly 5 of
those also contain `"18-24"` in `age_range`, the pipeline produces a
spatial table of length 100, a Black subset of length 10, and a Black-youth
subset of length 5. -/
theorem pipeline_scenario (payload : List Json) (tbl : List Series)
    (hok : parsing payload = .ok tbl)
    (hlen : payload.length = 100)
    (hblack : (payload.filter
      (fun cr => rawContains cr "self_defined_ethnicity" "Black")).length = 10)
    (hyouth : (payload.filter
      (fun cr => rawContains cr "self_defined_ethnicity" "Black" &&
        rawContains cr "age_range" "18-24")).length = 5) :
    (crimes_geodf_20 tbl).rows.length = 100 ∧
    (black (crimes_geodf_20 tbl)).rows.length = 10 ∧
    (black_youth (black (crimes_geodf_20 tbl))).rows.length = 5 := by
  have hgeo : (crimes_geodf_20 tbl).rows.length = tbl.length := by
    simp [crimes_geodf_20]
  have hqb : ∀ cr nr, parse_ss_event cr = .ok nr →
      pdContains (seriesGet nr "self_defined_ethnicity") "Black" =
        rawContains cr "self_defined_ethnicity" "Black" := by
    intro cr nr h
    rw [(parse_preserves_lookup h).1]
    rfl
  have hqby : ∀ cr nr, parse_ss_event cr = .ok nr →
      (pdContains (seriesGet nr "self_defined_ethnicity") "Black" &&
        pdContains (seriesGet nr "age_range") "18-24") =
        (rawContains cr "self_defined_ethnicity" "Black" &&
          rawContains cr "age_range" "18-24") := by
    intro cr nr h
    rw [(parse_preserves_lookup h).1, (parse_preserves_lookup h).2]
    rfl
  obtain ⟨hlen1, hcnt1⟩ := parsing_ok_counts _ _ hqb payload tbl hok
  obtain ⟨_, hcnt2⟩ := parsing_ok_counts _ _ hqby payload tbl hok
  refine ⟨by rw [hgeo, hlen1, hlen], ?_, ?_⟩
  · rw [black_length, hcnt1, List.countP_eq_length_filter, hblack]
  · rw [black_youth_length, hcnt2, List.countP_eq_length_filter, hyouth]

set_option maxRecDepth 20000 in
/-- C5 witness: the concrete 100-record payload `scenarioPayload`; every
hypothesis holds by computation. -/
theorem pipeline_scenario_witness :
    (crimes_geodf_20 scenarioTable).rows.length = 100 ∧
    (black (crimes_geodf_20 scenarioTable)).rows.length = 10 ∧
    (black_youth (black (crimes_geodf_20 scenarioTable))).rows.length = 5 :=
  pipeline_scenario scenarioPayload scenarioTable rfl rfl rfl rfl

/-! ## C6: substring filtering is idempotent and keeps exactly the
containing rows -/

/-- C6: for every spatial table, applying the `"Black"` substring filter on
`self_defined_ethnicity` to a table already filtered for `"Black"` yields
the identical table, and the filter keeps exactly the rows whose field
value contains the substring (containment, not exact match). -/
theorem black_filter_idempotent (g : GeoTable) :
    black (black g) = black g ∧
    (∀ r : GeoRow, r ∈ (black g).rows ↔
      r ∈ g.rows ∧
        pdContains (seriesGet r.fields "self_defined_ethnicity") "Black" = true) := by
  constructor
  · simp [black, filterContains, List.filter_filter]
  · intro r
    simp [black, filterContains, List.mem_filter]

/-! ## C7: percentages are bounded on non-empty tables and raise on empty
ones -/

/-- C7: for the subset percentages the notebook computes, a non-empty
denominator yields a fraction in `[0, 1]` (a percentage in `[0, 100]`),
while an empty denominator raises `ZeroDivisionError` (never a silent
`NaN`). -/
theorem percentage_bounds (g : GeoTable) :
    (g.rows.length ≠ 0 →
      ∃ q, bk_percentage g = .ok q ∧ 0 ≤ q ∧ q ≤ 1) ∧
    (g.rows.length = 0 → bk_percentage g = .error "ZeroDivisionError") ∧
    ((black g).rows.length ≠ 0 →
      ∃ q, bk_youth_percentage g = .ok q ∧ 0 ≤ q ∧ q ≤ 100) ∧
    ((black g).rows.length = 0 →
      bk_youth_percentage g = .error "ZeroDivisionError") := by
  have hble : (black g).rows.length ≤ g.rows.length := by
    simpa [black, filterContains] using List.length_filter_le _ g.rows
  have hbyle : (black_youth (black g)).rows.length ≤ (black g).rows.length := by
    simpa [black_youth, filterContains] using
      List.length_filter_le _ (black g).rows
  refine ⟨?_, ?_, ?_, ?_⟩
  · intro hne
    refine ⟨((black g).rows.length : Rat) / (g.rows.length : Rat), ?_, ?_, ?_⟩
    · simp [bk_percentage, pyDiv, hne]
    · positivity
    · rw [div_le_one (by positivity)]
      exact_mod_cast hble
  · intro hz
    simp [bk_percentage, pyDiv, hz]
  · intro hne
    refine ⟨((black_youth (black g)).rows.length : Rat) / ((black g).rows.length : Rat) * 100,
      ?_, ?_, ?_⟩
    · simp [bk_youth_percentage, pyDiv, hne, Except.map]
    · positivity
    · have h1 : ((black_youth (black g)).rows.length : Rat) / ((black g).rows.length : Rat) ≤ 1 := by
        rw [div_le_one (by positivity)]
        exact_mod_cast hbyle
      nlinarith [h1]
  · intro hz
    simp [bk_youth_percentage, pyDiv, hz, Except.map]

/-- C7 witness: a one-row table (denominators non-zero) and the empty table
(denominators zero), at concrete inputs. -/
theorem percentage_bounds_witness :
    (∃ q, bk_percentage (crimes_geodf_20 [rowBlackYouth]) = .ok q ∧ 0 ≤ q ∧ q ≤ 1) ∧
    bk_percentage (crimes_geodf_20 []) = .error "ZeroDivisionError" ∧
    (∃ q, bk_youth_percentage (crimes_geodf_20 [rowBlackYouth]) = .ok q ∧ 0 ≤ q ∧ q ≤ 100) ∧
    bk_youth_percentage (crimes_geodf_20 []) = .error "ZeroDivisionError" :=
  ⟨(percentage_bounds (crimes_geodf_20 [rowBlackYouth])).1 (by decide),
   (percentage_bounds (crimes_geodf_20 [])).2.1 rfl,
   (percentage_bounds (crimes_geodf_20 [rowBlackYouth])).2.2.1 (by decide),
   (percentage_bounds (crimes_geodf_20 [])).2.2.2 rfl⟩

/-! ## C8: the isochrone splitter on a two-feature response -/

/-- C8: for every isochrone FeatureCollection with exactly two features,
the splitter produces exactly two single-feature geometries, each tagged
with CRS `"EPSG:4326"` and each preserving its original polygon ring's
vertex order and vertex count (the coordinates are carried verbatim). -/
theorem iso_split (walk : FeatureCollection) (f0 f1 : Feature)
    (h : walk.features = [f0, f1]) :
    walk_5 walk = .ok (from_features [f0] "EPSG:4326") ∧
    walk_10 walk = .ok (from_features [f1] "EPSG:4326") ∧
    (from_features [f0] "EPSG:4326").features.length = 1 ∧
    (from_features [f1] "EPSG:4326").features.length = 1 ∧
    (from_features [f0] "EPSG:4326").crs = "EPSG:4326" ∧
    (from_features [f1] "EPSG:4326").crs = "EPSG:4326" ∧
    (from_features [f0] "EPSG:4326").features.map Feature.coordinates = [f0.coordinates] ∧
    (from_features [f1] "EPSG:4326").features.map Feature.coordinates = [f1.coordinates] := by
  obtain ⟨fs⟩ := walk
  simp only [FeatureCollection.mk.injEq] at h
  subst h
  exact ⟨rfl, rfl, rfl, rfl, rfl, rfl, rfl, rfl⟩

/-- C8 witness: the recorded two-feature isochrone response. -/
theorem iso_split_witness :
    walk_5 recordedWalk = .ok (from_features [recordedFeature0] "EPSG:4326") ∧
    walk_10 recordedWalk = .ok (from_features [recordedFeature1] "EPSG:4326") ∧
    (from_features [recordedFeature0] "EPSG:4326").features.length = 1 ∧
    (from_features [recordedFeature1] "EPSG:4326").features.length = 1 ∧
    (from_features [recordedFeature0] "EPSG:4326").crs = "EPSG:4326" ∧
    (from_features [recordedFeature1] "EPSG:4326").crs = "EPSG:4326" ∧
    (from_features [recordedFeature0] "EPSG:4326").features.map Feature.coordinates =
      [recordedFeature0.coordinates] ∧
    (from_features [recordedFeature1] "EPSG:4326").features.map Feature.coordinates =
      [recordedFeature1.coordinates] :=
  iso_split recordedWalk recordedFeature0 recordedFeature1 rfl

/-! ## C9: the crimes spatial table is tagged EPSG:27700 -/

/-- C9 (implicit): the geo-tagger builds each row's point geometry directly
from that row's longitude/latitude column values and tags the resulting
crimes spatial table with CRS `"EPSG:27700"`, which is not the
`"EPSG:4326"` geographic CRS. -/
theorem geodf_crs (tbl : List Series) :
    (crimes_geodf_20 tbl).crs = "EPSG:27700" ∧
    (crimes_geodf_20 tbl).crs ≠ "EPSG:4326" ∧
    (crimes_geodf_20 tbl).rows =
      tbl.map (fun r => { fields := r, geometry := pointFromRow r }) :=
  ⟨rfl, fun h => (by decide : ("EPSG:27700" : String) ≠ "EPSG:4326") h, rfl⟩

/-! ## C10: the splitter assigns by array position; the recorded response
has contour 10 first -/

/-- C10 (implicit): the isochrone splitter assigns outputs by array
position, not by the `contour` property — for every two-feature collection
the 5-minute output is built from `features[0]` and the 10-minute output
from `features[1]` — and in the recorded API response `features[0]` carries
`contour = 10` and `features[1]` carries `contour = 5`, so the outputs
named `walk_5` and `walk_10` hold the 10-minute and 5-minute polygons
respectively. -/
theorem split_positional_recorded (walk : FeatureCollection) (f0 f1 : Feature)
    (h : walk.features = [f0, f1]) :
    walk_5 walk = .ok (from_features [f0] "EPSG:4326") ∧
    walk_10 walk = .ok (from_features [f1] "EPSG:4326") ∧
    lookupKey recordedFeature0.properties "contour" = some (.int 10) ∧
    lookupKey recordedFeature1.properties "contour" = some (.int 5) ∧
    recordedWalk.features = [recordedFeature0, recordedFeature1] := by
  obtain ⟨fs⟩ := walk
  simp only [FeatureCollection.mk.injEq] at h
  subst h
  exact ⟨rfl, rfl, rfl, rfl, rfl⟩

/-- C10 witness: at the recorded response, `walk_5` is built from the
recorded first feature — the one whose `contour` is 10. -/
theorem split_positional_recorded_witness :
    walk_5 recordedWalk = .ok (from_features [recordedFeature0] "EPSG:4326") ∧
    walk_10 recordedWalk = .ok (from_features [recordedFeature1] "EPSG:4326") ∧
    lookupKey recordedFeature0.properties "contour" = some (.int 10) ∧
    lookupKey recordedFeature1.properties "contour" = some (.int 5) ∧
    recordedWalk.features = [recordedFeature0, recordedFeature1] :=
  split_positional_recorded recordedWalk recordedFeature0 recordedFeature1 rfl

end ItWalk
